import Mathlib

/-!
# Verification development for two terraform-provider-aws resource handlers

Shallow embedding of

* `internal/service/ec2/ec2_serial_console_access.go`
* `internal/service/route53/cidr_location.go`

Remote API clients are modelled by explicit state passing: a client is a record of
transition functions over an abstract server state `σ`, and every call a handler issues is
appended to a call log carried next to the server state.
-/

set_option autoImplicit false

/-! ## Diagnostics (terraform-plugin-sdk `diag` / terraform-plugin-framework `diag`) -/

/-- Severity of a diagnostic. -/
inductive Severity where
  | Error
  | Warning
deriving DecidableEq, Repr

/-! ## EC2 serial console access -/

namespace EC2

/-- A Go `error` value returned by the EC2 SDK: only its `Error()` text is observed. -/
structure GoError where
  text : String
deriving DecidableEq, Repr

/-- One entry of `diag.Diagnostics`. -/
structure Diagnostic where
  severity : Severity
  summary : String
deriving DecidableEq, Repr

/-- The API operations of `*ec2.Client` used by the serial console access resource. -/
inductive Call where
  | EnableSerialConsoleAccess
  | DisableSerialConsoleAccess
  | GetSerialConsoleAccessStatus
deriving DecidableEq, Repr

/-- The EC2 client over an abstract server state: each operation maps the server state to
the next server state and the call result (`none` is a nil error). -/
structure Client (σ : Type) where
  EnableSerialConsoleAccess : σ → σ × Option GoError
  DisableSerialConsoleAccess : σ → σ × Option GoError
  GetSerialConsoleAccessStatus : σ → σ × Except GoError (Option Bool)

/-- Server state together with the log of API calls issued so far, oldest first. -/
structure World (σ : Type) where
  server : σ
  calls : List Call

/-- The `*schema.ResourceData` of the resource: its `enabled` attribute and its ID. -/
structure ResourceData where
  enabled : Bool
  id : String
deriving DecidableEq, Repr

/-- Go `diags.HasError()`. -/
def HasError (diags : List Diagnostic) : Bool :=
  diags.any fun d => d.severity == Severity.Error

/-- Go `sdkdiag.AppendErrorf(diags, format, a...)` with the format already applied. -/
def AppendErrorf (diags : List Diagnostic) (summary : String) : List Diagnostic :=
  diags ++ [{ severity := Severity.Error, summary := summary }]

/-- Go `setSerialConsoleAccess`. -/
def setSerialConsoleAccess {σ : Type} (conn : Client σ) (w : World σ) (enabled : Bool) :
    World σ × Option GoError :=
  if enabled then
    let r := conn.EnableSerialConsoleAccess w.server
    ({ server := r.1, calls := w.calls ++ [Call.EnableSerialConsoleAccess] }, r.2)
  else
    let r := conn.DisableSerialConsoleAccess w.server
    ({ server := r.1, calls := w.calls ++ [Call.DisableSerialConsoleAccess] }, r.2)

/-- Go `resourceSerialConsoleAccessDelete`. -/
def resourceSerialConsoleAccessDelete {σ : Type} (conn : Client σ) (w : World σ)
    (_d : ResourceData) : World σ × List Diagnostic :=
  let diags : List Diagnostic := []
  match setSerialConsoleAccess conn w false with
  | (w1, some err) =>
    (w1, AppendErrorf diags ("disabling EC2 Serial Console Access: " ++ err.text))
  | (w1, none) => (w1, diags)

end EC2

/-! ## Route 53 CIDR location -/

namespace Route53

/-- Framework `types.String`: null, unknown, or a known value. -/
inductive TFString where
  | Null
  | Unknown
  | Value (s : String)
deriving DecidableEq, Repr

/-- Go `types.String.ValueString`: the known value, or the empty string. -/
def TFString.ValueString : TFString → String
  | TFString.Value s => s
  | _ => ""

/-- Go `types.String.ValueStringPointer`: nil for null, else a pointer to the value. -/
def TFString.ValueStringPointer : TFString → Option String
  | TFString.Null => none
  | TFString.Unknown => some ""
  | TFString.Value s => some s

/-- Go `cidrLocationResourceModel`. `CIDRBlocks` is a set of strings, `none` when null. -/
structure cidrLocationResourceModel where
  CIDRBlocks : Option (Finset String)
  CIDRCollectionID : TFString
  ID : TFString
  Name : TFString
deriving DecidableEq

/-- Go `awstypes.CidrCollectionChangeAction`. -/
inductive CidrCollectionChangeAction where
  | Put
  | DeleteIfExists
deriving DecidableEq, Repr

/-- Go `awstypes.CidrCollectionChange`. -/
structure CidrCollectionChange where
  Action : CidrCollectionChangeAction
  CidrList : Finset String
  LocationName : Option String
deriving DecidableEq

/-- Go `route53.ChangeCidrCollectionInput`. -/
structure ChangeCidrCollectionInput where
  Changes : List CidrCollectionChange
  CollectionVersion : Option Int
  Id : Option String
deriving DecidableEq

/-- Go `route53.ListCidrBlocksInput`. -/
structure ListCidrBlocksInput where
  CollectionId : Option String
  LocationName : Option String
  MaxResults : Option Int
  NextToken : Option String
deriving DecidableEq, Repr

/-- Go `awstypes.CidrBlockSummary`. -/
structure CidrBlockSummary where
  CidrBlock : Option String
  LocationName : Option String
deriving DecidableEq, Repr

/-- Go `route53.ListCidrBlocksOutput`. -/
structure ListCidrBlocksOutput where
  CidrBlocks : List CidrBlockSummary
  NextToken : Option String
deriving DecidableEq, Repr

/-- Go `awstypes.CollectionSummary`, the result of `findCIDRCollectionByID`. -/
structure CollectionSummary where
  Arn : Option String
  Id : Option String
  Name : Option String
  Version : Option Int
deriving DecidableEq, Repr

/-- An error returned by a Route 53 SDK call: the two exception types the handlers test
for with `errs.IsA`, and any other transport or API error. -/
inductive APIError where
  | NoSuchCidrCollectionException
  | NoSuchCidrLocationException
  | Other (text : String)
deriving DecidableEq, Repr

/-- The `LastRequest` recorded in a not-found error. -/
inductive Request where
  | ListCidrBlocks (input : ListCidrBlocksInput)
  | Opaque (text : String)
deriving DecidableEq, Repr

/-- Go `error` values that flow through the CIDR location handlers. -/
inductive Error where
  | API (err : APIError)
  | NotFoundError (LastError : Option APIError) (LastRequest : Request)
  | EmptyResultError (LastRequest : Request)
  | FormatError
deriving DecidableEq, Repr

/-- Go `errs.IsA[*awstypes.NoSuchCidrCollectionException]` on the result of an SDK call. -/
def IsNoSuchCidrCollectionException : Option APIError → Bool
  | some APIError.NoSuchCidrCollectionException => true
  | _ => false

/-- Go `errs.IsA[*awstypes.NoSuchCidrLocationException]` on the result of an SDK call. -/
def IsNoSuchCidrLocationException : Option APIError → Bool
  | some APIError.NoSuchCidrLocationException => true
  | _ => false

/-- Modelled from the spec: `tfresource.NotFound` (package `internal/tfresource`, absent
here). The spec collapses "zero items returned" and "the parent container does not exist"
into one not-found signal, so both `*retry.NotFoundError` and the error built by
`tfresource.NewEmptyResultError` count as not-found; no other error does. -/
def NotFound : Option Error → Bool
  | some (Error.NotFoundError _ _) => true
  | some (Error.EmptyResultError _) => true
  | _ => false

/-- Modelled from the spec: `tfresource.NewEmptyResultError` (package `internal/tfresource`,
absent here): the not-found error for a zero-item result of the given request. -/
def NewEmptyResultError (input : ListCidrBlocksInput) : Error :=
  Error.EmptyResultError (Request.ListCidrBlocks input)

/-- One entry of the framework `diag.Diagnostics`. `detail` is the error whose `Error()`
text the diagnostic shows. -/
structure Diagnostic where
  severity : Severity
  summary : String
  detail : Error
deriving DecidableEq, Repr

/-- Go `Diagnostics.HasError`. -/
def HasError (diags : List Diagnostic) : Bool :=
  diags.any fun d => d.severity == Severity.Error

/-- Go `Diagnostics.AddError(summary, detail)`. -/
def AddError (diags : List Diagnostic) (summary : String) (detail : Error) : List Diagnostic :=
  diags ++ [{ severity := Severity.Error, summary := summary, detail := detail }]

/-- Go `fwdiag.NewResourceNotFoundWarningDiagnostic(err)`: a warning, not an error. -/
def NewResourceNotFoundWarningDiagnostic (err : Error) : Diagnostic :=
  { severity := Severity.Warning, summary := "AWS resource not found during refresh",
    detail := err }

/-- The calls the handlers issue, as recorded in the call log. -/
inductive Call where
  | findCIDRCollectionByID (id : String)
  | ChangeCidrCollection (input : ChangeCidrCollectionInput)
  | ListCidrBlocks (input : ListCidrBlocksInput)
deriving DecidableEq

/-- The Route 53 connection over an abstract server state. `findCIDRCollectionByID` is
defined in another file of the package and is taken as a parameter here; the other two are
operations of `*route53.Client`. -/
structure Conn (σ : Type) where
  findCIDRCollectionByID : σ → String → σ × Except Error CollectionSummary
  ChangeCidrCollection : σ → ChangeCidrCollectionInput → σ × Option APIError
  ListCidrBlocks : σ → ListCidrBlocksInput → σ × Except APIError ListCidrBlocksOutput

/-- A log entry: the call issued, and whether it returned without an error. -/
structure Logged where
  call : Call
  ok : Bool
deriving DecidableEq

/-- Server state together with the log of calls issued so far, oldest first. -/
structure World (σ : Type) where
  server : σ
  calls : List Logged

/-- Issue `findCIDRCollectionByID` and log it. -/
def callFindCIDRCollectionByID {σ : Type} (conn : Conn σ) (w : World σ) (id : String) :
    World σ × Except Error CollectionSummary :=
  let r := conn.findCIDRCollectionByID w.server id
  ({ server := r.1,
     calls := w.calls ++ [{ call := Call.findCIDRCollectionByID id, ok := r.2.isOk }] }, r.2)

/-- Issue `conn.ChangeCidrCollection` and log it. -/
def callChangeCidrCollection {σ : Type} (conn : Conn σ) (w : World σ)
    (input : ChangeCidrCollectionInput) : World σ × Option APIError :=
  let r := conn.ChangeCidrCollection w.server input
  ({ server := r.1,
     calls := w.calls ++ [{ call := Call.ChangeCidrCollection input, ok := r.2.isNone }] }, r.2)

/-- Issue `conn.ListCidrBlocks` and log it. -/
def callListCidrBlocks {σ : Type} (conn : Conn σ) (w : World σ)
    (input : ListCidrBlocksInput) : World σ × Except APIError ListCidrBlocksOutput :=
  let r := conn.ListCidrBlocks w.server input
  ({ server := r.1,
     calls := w.calls ++ [{ call := Call.ListCidrBlocks input, ok := r.2.isOk }] }, r.2)

/-! ### Composite identity codec (`internal/flex`) -/

/-- Modelled from the spec: `flex.FlattenResourceId` (package `internal/flex`, absent here),
the spec's `encode(parts, expectedCount)`: it fails with a format error if the number of
parts differs from the expected count or any part contains the delimiter, and otherwise
joins the parts with the delimiter. The delimiter is a constant of the absent package and
is taken as the parameter `sep`. The third argument of the call is carried along; the spec
gives it no meaning. -/
def FlattenResourceId (sep : Char) (idParts : List String) (partCount : Nat)
    (_flag : Bool) : Except Error String :=
  if idParts.length ≠ partCount then Except.error Error.FormatError
  else if idParts.any (fun part => part.data.contains sep) then Except.error Error.FormatError
  else Except.ok (String.mk ([sep].intercalate (idParts.map String.data)))

/-- Modelled from the spec: `flex.ExpandResourceId` (package `internal/flex`, absent here),
the spec's `decode(id, expectedCount)`: it splits the ID at every delimiter and fails with
a format error if the resulting number of parts differs from the expected count. -/
def ExpandResourceId (sep : Char) (id : String) (partCount : Nat)
    (_flag : Bool) : Except Error (List String) :=
  let idParts := (id.data.splitOn sep).map String.mk
  if idParts.length ≠ partCount then Except.error Error.FormatError
  else Except.ok idParts

/-- Go `cidrLocationResourceIDPartCount`. -/
def cidrLocationResourceIDPartCount : Nat := 2

/-- Go `(*cidrLocationResourceModel).InitFromID`. The result is the updated model.
`parts[0]` and `parts[1]` are in range whenever `ExpandResourceId` succeeds with two parts. -/
def InitFromID (sep : Char) (data : cidrLocationResourceModel) :
    Except Error cidrLocationResourceModel :=
  let id := data.ID.ValueString
  match ExpandResourceId sep id cidrLocationResourceIDPartCount false with
  | Except.error err => Except.error err
  | Except.ok parts =>
    Except.ok { data with
      CIDRCollectionID := TFString.Value (parts.getD 0 "")
      Name := TFString.Value (parts.getD 1 "") }

/-- Go `(*cidrLocationResourceModel).setID`. -/
def setID (sep : Char) (data : cidrLocationResourceModel) : Except Error String :=
  let parts := [data.CIDRCollectionID.ValueString, data.Name.ValueString]
  FlattenResourceId sep parts cidrLocationResourceIDPartCount false

/-! ### Set reconciliation (`internal/types`, `internal/framework/flex`) -/

/-- Modelled from the spec: `fwflex.ExpandFrameworkStringValueSet` (package
`internal/framework/flex`, absent here): the set of strings held by a set-valued attribute;
a null attribute holds none. -/
def ExpandFrameworkStringValueSet (v : Option (Finset String)) : Finset String :=
  v.getD ∅

/-- Modelled from the spec: the `Difference` method of the set type of `internal/types`
(absent here). `s.Difference(ns)` is the spec's `s − ns`: the members of `s` that are not
members of `ns`. -/
def Difference (s ns : Finset String) : Finset String :=
  s \ ns

/-! ### Finder and pager -/

/-- The `route53.ListCidrBlocksPaginator` of the AWS SDK for Go v2. -/
structure ListCidrBlocksPaginator where
  Limit : Int
  StopOnDuplicateToken : Bool
  params : ListCidrBlocksInput
  nextToken : Option String
  firstPage : Bool
deriving DecidableEq, Repr

/-- SDK `route53.NewListCidrBlocksPaginator(conn, input)` with no option functions. -/
def NewListCidrBlocksPaginator (params : ListCidrBlocksInput) : ListCidrBlocksPaginator :=
  { Limit := params.MaxResults.getD 0
    StopOnDuplicateToken := false
    params := params
    nextToken := params.NextToken
    firstPage := true }

/-- SDK `(*ListCidrBlocksPaginator).HasMorePages`. -/
def ListCidrBlocksPaginator.HasMorePages (p : ListCidrBlocksPaginator) : Bool :=
  p.firstPage || (match p.nextToken with
    | some t => t.length != 0
    | none => false)

/-- SDK `(*ListCidrBlocksPaginator).NextPage`: the page or the error, and the paginator
after the call. An error leaves the paginator as it was. -/
def ListCidrBlocksPaginator.NextPage {σ : Type} (conn : Conn σ) (w : World σ)
    (p : ListCidrBlocksPaginator) :
    World σ × Except APIError ListCidrBlocksOutput × ListCidrBlocksPaginator :=
  if !p.HasMorePages then
    (w, Except.error (APIError.Other "no more pages available"), p)
  else
    let params : ListCidrBlocksInput :=
      { p.params with
        NextToken := p.nextToken
        MaxResults := if p.Limit > 0 then some p.Limit else none }
    match callListCidrBlocks conn w params with
    | (w1, Except.error err) => (w1, Except.error err, p)
    | (w1, Except.ok result) =>
      let prevToken := p.nextToken
      let nextToken :=
        if p.StopOnDuplicateToken && prevToken.isSome && result.NextToken.isSome
            && prevToken == result.NextToken then none
        else result.NextToken
      (w1, Except.ok result, { p with firstPage := false, nextToken := nextToken })

/-- The `for pages.HasMorePages()` loop of Go `findCIDRBlocks`. `fuel` bounds the number of
pages fetched; `none` means the loop was still running when the fuel ran out. The result is
the Go pair `(output, err)`, a nil slice being the empty list. -/
def findCIDRBlocksLoop {σ : Type} (conn : Conn σ) (input : ListCidrBlocksInput) :
    Nat → World σ → ListCidrBlocksPaginator → List CidrBlockSummary →
      Option (World σ × List CidrBlockSummary × Option Error)
  | 0, w, pages, output =>
    if pages.HasMorePages then none else some (w, output, none)
  | fuel + 1, w, pages, output =>
    if pages.HasMorePages then
      match pages.NextPage conn w with
      | (w1, Except.error err, _) =>
        if IsNoSuchCidrCollectionException (some err)
            || IsNoSuchCidrLocationException (some err) then
          some (w1, [], some (Error.NotFoundError (some err) (Request.ListCidrBlocks input)))
        else
          some (w1, [], some (Error.API err))
      | (w1, Except.ok page, pages1) =>
        findCIDRBlocksLoop conn input fuel w1 pages1 (output ++ page.CidrBlocks)
    else some (w, output, none)

/-- Go `findCIDRBlocks`. -/
def findCIDRBlocks {σ : Type} (conn : Conn σ) (fuel : Nat) (w : World σ)
    (input : ListCidrBlocksInput) : Option (World σ × List CidrBlockSummary × Option Error) :=
  findCIDRBlocksLoop conn input fuel w (NewListCidrBlocksPaginator input) []

/-- Go `aws.ToString`. -/
def ToString (p : Option String) : String :=
  p.getD ""

/-- Go `findCIDRLocationByTwoPartKey`. The length test on `output` comes before the test
on `err`, as in the source. -/
def findCIDRLocationByTwoPartKey {σ : Type} (conn : Conn σ) (fuel : Nat) (w : World σ)
    (collectionID locationName : String) : Option (World σ × Except Error (List String)) :=
  let input : ListCidrBlocksInput :=
    { CollectionId := some collectionID, LocationName := some locationName,
      MaxResults := none, NextToken := none }
  match findCIDRBlocks conn fuel w input with
  | none => none
  | some (w1, output, err) =>
    if output.length == 0 then
      some (w1, Except.error (NewEmptyResultError input))
    else
      match err with
      | some e => some (w1, Except.error e)
      | none => some (w1, Except.ok (output.map fun v => ToString v.CidrBlock))

/-! ### Resource lifecycle -/

/-- Framework `resource.ReadRequest`: the prior state, decoded into the model. -/
structure ReadRequest where
  State : cidrLocationResourceModel

/-- Framework `resource.ReadResponse`. `State` starts as the prior state; `none` after
`State.RemoveResource`. -/
structure ReadResponse where
  Diagnostics : List Diagnostic
  State : Option cidrLocationResourceModel
deriving DecidableEq

/-- Framework `resource.UpdateRequest`: prior state and plan, decoded into the model. -/
structure UpdateRequest where
  State : cidrLocationResourceModel
  Plan : cidrLocationResourceModel

/-- Framework `resource.UpdateResponse`. `State` starts as the prior state. -/
structure UpdateResponse where
  Diagnostics : List Diagnostic
  State : cidrLocationResourceModel
deriving DecidableEq

/-- Framework `resource.DeleteRequest`: the prior state, decoded into the model. -/
structure DeleteRequest where
  State : cidrLocationResourceModel

/-- Framework `resource.DeleteResponse`: the handler only adds diagnostics to it. -/
structure DeleteResponse where
  Diagnostics : List Diagnostic
deriving DecidableEq

/-- Go `(*cidrLocationResource).Read`. `none` means the paging loop of the lookup was still
running when the fuel ran out. -/
def Read {σ : Type} (sep : Char) (conn : Conn σ) (fuel : Nat) (w : World σ)
    (request : ReadRequest) : Option (World σ × ReadResponse) :=
  let response : ReadResponse := { Diagnostics := [], State := some request.State }
  match InitFromID sep request.State with
  | Except.error err =>
    some (w, { response with
      Diagnostics := AddError response.Diagnostics "parsing resource ID" err })
  | Except.ok data =>
    match findCIDRLocationByTwoPartKey conn fuel w
        data.CIDRCollectionID.ValueString data.Name.ValueString with
    | none => none
    | some (w1, Except.error err) =>
      if NotFound (some err) then
        some (w1, { Diagnostics :=
                      response.Diagnostics ++ [NewResourceNotFoundWarningDiagnostic err]
                    State := none })
      else
        some (w1, { response with
          Diagnostics := AddError response.Diagnostics
            ("reading Route 53 CIDR Location (" ++ data.ID.ValueString ++ ")") err })
    | some (w1, Except.ok cidrBlocks) =>
      let data1 : cidrLocationResourceModel :=
        if cidrBlocks.length > 0 then { data with CIDRBlocks := some cidrBlocks.toFinset }
        else { data with CIDRBlocks := none }
      some (w1, { response with State := some data1 })

/-- The `ChangeCidrCollectionInput` with a single change that `Update` and `Delete` build. -/
def changeInput (action : CidrCollectionChangeAction) (cidrList : Finset String)
    (data : cidrLocationResourceModel) (collectionVersion : Option Int) :
    ChangeCidrCollectionInput :=
  { Changes := [{ Action := action, CidrList := cidrList,
                  LocationName := data.Name.ValueStringPointer }]
    CollectionVersion := collectionVersion
    Id := data.CIDRCollectionID.ValueStringPointer }

/-- Go `(*cidrLocationResource).Update`. -/
def Update {σ : Type} (conn : Conn σ) (w : World σ) (request : UpdateRequest) :
    World σ × UpdateResponse :=
  let old := request.State
  let new := request.Plan
  let response : UpdateResponse := { Diagnostics := [], State := request.State }
  match callFindCIDRCollectionByID conn w new.CIDRCollectionID.ValueString with
  | (w1, Except.error err) =>
    (w1, { response with
      Diagnostics := AddError response.Diagnostics
        ("reading Route 53 CIDR Collection (" ++ new.CIDRCollectionID.ValueString ++ ")") err })
  | (w1, Except.ok collection) =>
    let oldCIDRBlocks := ExpandFrameworkStringValueSet old.CIDRBlocks
    let newCIDRBlocks := ExpandFrameworkStringValueSet new.CIDRBlocks
    let add := Difference newCIDRBlocks oldCIDRBlocks
    let del := Difference oldCIDRBlocks newCIDRBlocks
    let collectionVersion := collection.Version
    -- `if len(add) > 0`: either an early return, or the world and the version to go on with
    let afterAdd : Except (World σ × UpdateResponse) (World σ × Option Int) :=
      if add.card > 0 then
        let input := changeInput CidrCollectionChangeAction.Put add new collectionVersion
        match callChangeCidrCollection conn w1 input with
        | (w2, some err) =>
          Except.error (w2, { response with
            Diagnostics := AddError response.Diagnostics
              ("adding CIDR blocks to Route 53 CIDR Location (" ++ new.ID.ValueString ++ ")")
              (Error.API err) })
        | (w2, none) => Except.ok (w2, none)
      else Except.ok (w1, collectionVersion)
    match afterAdd with
    | Except.error r => r
    | Except.ok (w2, collectionVersion) =>
      if del.card > 0 then
        let input :=
          changeInput CidrCollectionChangeAction.DeleteIfExists del new collectionVersion
        match callChangeCidrCollection conn w2 input with
        | (w3, some err) =>
          (w3, { response with
            Diagnostics := AddError response.Diagnostics
              ("removing CIDR blocks from Route 53 CIDR Location (" ++ new.ID.ValueString ++ ")")
              (Error.API err) })
        | (w3, none) => (w3, { response with State := new })
      else (w2, { response with State := new })

/-- Go `(*cidrLocationResource).Delete`. -/
def Delete {σ : Type} (conn : Conn σ) (w : World σ) (request : DeleteRequest) :
    World σ × DeleteResponse :=
  let data := request.State
  let response : DeleteResponse := { Diagnostics := [] }
  match callFindCIDRCollectionByID conn w data.CIDRCollectionID.ValueString with
  | (w1, Except.error err) =>
    (w1, { Diagnostics :=
             AddError response.Diagnostics
               ("reading Route 53 CIDR Collection (" ++ data.CIDRCollectionID.ValueString ++ ")")
               err })
  | (w1, Except.ok collection) =>
    let input := changeInput CidrCollectionChangeAction.DeleteIfExists
      (ExpandFrameworkStringValueSet data.CIDRBlocks) data collection.Version
    match callChangeCidrCollection conn w1 input with
    | (w2, err) =>
      if IsNoSuchCidrCollectionException err then (w2, response)
      else
        match err with
        | some e =>
          (w2, { Diagnostics :=
                   AddError response.Diagnostics
                     ("deleting Route 53 CIDR Location (" ++ data.ID.ValueString ++ ")")
                     (Error.API e) })
        | none => (w2, response)

/-! ### A scripted connection for concrete runs -/

/-- A connection whose answers are scripted. The server state counts the
`ChangeCidrCollection` and `ListCidrBlocks` calls received so far; the `k`-th such call is
answered by `changes[k]` (no error past the end of the script), respectively by `pages[k]`
(an empty last page past the end). The collection lookup always answers `lookup`. -/
def scriptedConn (lookup : Except Error CollectionSummary)
    (changes : List (Option APIError))
    (pages : List (Except APIError ListCidrBlocksOutput)) : Conn Nat where
  findCIDRCollectionByID := fun s _ => (s, lookup)
  ChangeCidrCollection := fun s _ => (s + 1, changes.getD s none)
  ListCidrBlocks := fun s _ =>
    (s + 1, pages.getD s (Except.ok { CidrBlocks := [], NextToken := none }))

/-- The collection `abc123` at version 7. -/
def exampleCollection : CollectionSummary :=
  { Arn := none, Id := some "abc123", Name := some "example", Version := some 7 }

/-- A tracked location `my-location` of collection `abc123` with the given CIDR blocks. -/
def exampleModel (cidrBlocks : Finset String) : cidrLocationResourceModel :=
  { CIDRBlocks := some cidrBlocks
    CIDRCollectionID := TFString.Value "abc123"
    ID := TFString.Value "abc123:my-location"
    Name := TFString.Value "my-location" }

/-- An update from `10.0.0.0/24, 10.0.1.0/24` to `10.0.1.0/24, 10.0.2.0/24`. -/
def exampleUpdateRequest : UpdateRequest :=
  { State := exampleModel {"10.0.0.0/24", "10.0.1.0/24"}
    Plan := exampleModel {"10.0.1.0/24", "10.0.2.0/24"} }

/-- A fresh world: server state 0 and an empty call log. -/
def exampleWorld : World Nat :=
  { server := 0, calls := [] }

end Route53

/-! ## Theorems -/

/-- C9: for every client, server state and resource data (whatever its `enabled`
attribute), Delete appends exactly one call to the log, that call is
`DisableSerialConsoleAccess`, the server state afterwards is the one that call produced, and
Delete reports an error exactly when that call returned an error. -/
theorem serialConsoleAccessDelete_disables_once {σ : Type} (conn : EC2.Client σ)
    (w : EC2.World σ) (d : EC2.ResourceData) :
    (EC2.resourceSerialConsoleAccessDelete conn w d).1.calls
        = w.calls ++ [EC2.Call.DisableSerialConsoleAccess]
      ∧ (EC2.resourceSerialConsoleAccessDelete conn w d).1.server
        = (conn.DisableSerialConsoleAccess w.server).1
      ∧ (EC2.HasError (EC2.resourceSerialConsoleAccessDelete conn w d).2 = true
          ↔ (conn.DisableSerialConsoleAccess w.server).2 ≠ none) := by
  unfold EC2.resourceSerialConsoleAccessDelete EC2.setSerialConsoleAccess
  cases h : (conn.DisableSerialConsoleAccess w.server).2 <;>
    simp [h, EC2.HasError, EC2.AppendErrorf]

/-! ### Set reconciliation -/

/-- Splitting the join of two delimiter-free parts gives back the two parts. -/
theorem splitOn_two_parts (sep : Char) (a b : List Char) (ha : sep ∉ a) (hb : sep ∉ b) :
    ([sep].intercalate [a, b]).splitOn sep = [a, b] := by
  apply List.splitOn_intercalate
  · intro l hl
    simp only [List.mem_cons, List.mem_singleton, List.not_mem_nil, or_false] at hl
    rcases hl with rfl | rfl
    · exact ha
    · exact hb
  · simp

/-- C8: for every pair of non-empty strings `c` (cidr_collection_id) and `n` (name) that do
not contain the ID delimiter, `setID` on a model holding them succeeds, and `InitFromID` on
any model whose ID is the string `setID` returned succeeds and sets `CIDRCollectionID` and
`Name` to exactly `c` and `n`, leaving the other fields as they were. -/
theorem setID_InitFromID_roundtrip (sep : Char) (data : Route53.cidrLocationResourceModel)
    (c n : String) (hc : data.CIDRCollectionID = Route53.TFString.Value c)
    (hn : data.Name = Route53.TFString.Value n) (_hc0 : c ≠ "") (_hn0 : n ≠ "")
    (hcs : sep ∉ c.data) (hns : sep ∉ n.data) :
    ∃ id, Route53.setID sep data = Except.ok id
      ∧ id = String.mk (c.data ++ sep :: n.data)
      ∧ ∀ m : Route53.cidrLocationResourceModel, m.ID = Route53.TFString.Value id →
          Route53.InitFromID sep m
            = Except.ok { m with CIDRCollectionID := Route53.TFString.Value c
                                 Name := Route53.TFString.Value n } := by
  have hsplit := splitOn_two_parts sep c.data n.data hcs hns
  refine ⟨String.mk ([sep].intercalate [c.data, n.data]), ?_, ?_, ?_⟩
  · simp [Route53.setID, Route53.FlattenResourceId, Route53.cidrLocationResourceIDPartCount,
      hc, hn, Route53.TFString.ValueString, hcs, hns]
  · simp [List.intercalate]
  · intro m hm
    simp [Route53.InitFromID, Route53.ExpandResourceId, hm, Route53.TFString.ValueString,
      hsplit, Route53.cidrLocationResourceIDPartCount]

/-- C8 witness: the pair `abc123`, `my-location` with delimiter `:` encodes to
`abc123:my-location`, which decodes to the pair. -/
theorem setID_InitFromID_roundtrip_witness :
    Route53.setID ':'
        { CIDRBlocks := none, CIDRCollectionID := Route53.TFString.Value "abc123",
          ID := Route53.TFString.Null, Name := Route53.TFString.Value "my-location" }
      = Except.ok "abc123:my-location"
    ∧ Route53.InitFromID ':'
        { CIDRBlocks := none, CIDRCollectionID := Route53.TFString.Null,
          ID := Route53.TFString.Value "abc123:my-location", Name := Route53.TFString.Null }
      = Except.ok
        { CIDRBlocks := none, CIDRCollectionID := Route53.TFString.Value "abc123",
          ID := Route53.TFString.Value "abc123:my-location",
          Name := Route53.TFString.Value "my-location" } := by
  obtain ⟨id, h1, h2, h3⟩ := setID_InitFromID_roundtrip ':'
    { CIDRBlocks := none, CIDRCollectionID := Route53.TFString.Value "abc123",
      ID := Route53.TFString.Null, Name := Route53.TFString.Value "my-location" }
    "abc123" "my-location" rfl rfl (by decide) (by decide) (by decide) (by decide)
  subst h2
  exact ⟨h1, h3 _ rfl⟩

/-! ### Update -/

section UpdateCases

variable {σ : Type} (conn : Route53.Conn σ) (w : Route53.World σ)
  (request : Route53.UpdateRequest) (s1 : σ) (collection : Route53.CollectionSummary)
  (add del : Finset String)

/-- Update when the collection lookup fails: one error, state untouched, no change call. -/
theorem Update_lookup_failed (err : Route53.Error)
    (hfind : conn.findCIDRCollectionByID w.server request.Plan.CIDRCollectionID.ValueString
      = (s1, Except.error err)) :
    Route53.Update conn w request
      = ({ server := s1,
           calls := w.calls ++ [⟨Route53.Call.findCIDRCollectionByID
             request.Plan.CIDRCollectionID.ValueString, false⟩] },
         { Diagnostics := [⟨Severity.Error, "reading Route 53 CIDR Collection ("
             ++ request.Plan.CIDRCollectionID.ValueString ++ ")", err⟩],
           State := request.State }) := by
  unfold Route53.Update
  simp [Route53.callFindCIDRCollectionByID, hfind, Route53.AddError, Except.isOk,
    Except.toBool]

/-- Update when neither set is non-empty: no change call, the plan is written to state. -/
theorem Update_no_change
    (hfind : conn.findCIDRCollectionByID w.server request.Plan.CIDRCollectionID.ValueString
      = (s1, Except.ok collection))
    (hadd : Route53.Difference (Route53.ExpandFrameworkStringValueSet request.Plan.CIDRBlocks)
      (Route53.ExpandFrameworkStringValueSet request.State.CIDRBlocks) = ∅)
    (hdel : Route53.Difference (Route53.ExpandFrameworkStringValueSet request.State.CIDRBlocks)
      (Route53.ExpandFrameworkStringValueSet request.Plan.CIDRBlocks) = ∅) :
    Route53.Update conn w request
      = ({ server := s1,
           calls := w.calls ++ [⟨Route53.Call.findCIDRCollectionByID
             request.Plan.CIDRCollectionID.ValueString, true⟩] },
         { Diagnostics := [], State := request.Plan }) := by
  unfold Route53.Update
  simp only [Route53.callFindCIDRCollectionByID, hfind, hadd, hdel]
  simp [Except.isOk, Except.toBool]

/-- Update when only the removal set is non-empty: one DeleteIfExists with the fetched
version. -/
theorem Update_delete_only (s3 : σ) (r : Option Route53.APIError)
    (hfind : conn.findCIDRCollectionByID w.server request.Plan.CIDRCollectionID.ValueString
      = (s1, Except.ok collection))
    (hadd : Route53.Difference (Route53.ExpandFrameworkStringValueSet request.Plan.CIDRBlocks)
      (Route53.ExpandFrameworkStringValueSet request.State.CIDRBlocks) = ∅)
    (hdel : Route53.Difference (Route53.ExpandFrameworkStringValueSet request.State.CIDRBlocks)
      (Route53.ExpandFrameworkStringValueSet request.Plan.CIDRBlocks) = del)
    (hne : del ≠ ∅)
    (hrm : conn.ChangeCidrCollection s1
      (Route53.changeInput Route53.CidrCollectionChangeAction.DeleteIfExists del request.Plan
        collection.Version) = (s3, r)) :
    Route53.Update conn w request
      = ({ server := s3,
           calls := w.calls ++ [⟨Route53.Call.findCIDRCollectionByID
               request.Plan.CIDRCollectionID.ValueString, true⟩,
             ⟨Route53.Call.ChangeCidrCollection
               (Route53.changeInput Route53.CidrCollectionChangeAction.DeleteIfExists del
                 request.Plan collection.Version), r.isNone⟩] },
         match r with
         | some err =>
           { Diagnostics := [⟨Severity.Error, "removing CIDR blocks from Route 53 CIDR Location ("
               ++ request.Plan.ID.ValueString ++ ")", Route53.Error.API err⟩],
             State := request.State }
         | none => { Diagnostics := [], State := request.Plan }) := by
  have hpos : 0 < del.card := Finset.card_pos.mpr (Finset.nonempty_iff_ne_empty.mpr hne)
  unfold Route53.Update
  simp only [Route53.callFindCIDRCollectionByID, hfind, hadd, hdel,
    Route53.callChangeCidrCollection, hrm]
  cases r <;> simp [hpos, hrm, Except.isOk, Except.toBool, Route53.AddError]

/-- Update when the addition set is non-empty and the Put fails: one Put with the fetched
version, one error naming the additions step, state untouched, no DeleteIfExists. -/
theorem Update_put_failed (s2 : σ) (err : Route53.APIError)
    (hfind : conn.findCIDRCollectionByID w.server request.Plan.CIDRCollectionID.ValueString
      = (s1, Except.ok collection))
    (hadd : Route53.Difference (Route53.ExpandFrameworkStringValueSet request.Plan.CIDRBlocks)
      (Route53.ExpandFrameworkStringValueSet request.State.CIDRBlocks) = add)
    (hne : add ≠ ∅)
    (hput : conn.ChangeCidrCollection s1
      (Route53.changeInput Route53.CidrCollectionChangeAction.Put add request.Plan
        collection.Version) = (s2, some err)) :
    Route53.Update conn w request
      = ({ server := s2,
           calls := w.calls ++ [⟨Route53.Call.findCIDRCollectionByID
               request.Plan.CIDRCollectionID.ValueString, true⟩,
             ⟨Route53.Call.ChangeCidrCollection
               (Route53.changeInput Route53.CidrCollectionChangeAction.Put add request.Plan
                 collection.Version), false⟩] },
         { Diagnostics := [⟨Severity.Error, "adding CIDR blocks to Route 53 CIDR Location ("
             ++ request.Plan.ID.ValueString ++ ")", Route53.Error.API err⟩],
           State := request.State }) := by
  have hpos : 0 < add.card := Finset.card_pos.mpr (Finset.nonempty_iff_ne_empty.mpr hne)
  unfold Route53.Update
  simp only [Route53.callFindCIDRCollectionByID, hfind, hadd,
    Route53.callChangeCidrCollection, hput]
  simp [hpos, hput, Except.isOk, Except.toBool, Route53.AddError]

/-- Update when only the addition set is non-empty and the Put succeeds: one Put with the
fetched version, the plan is written to state. -/
theorem Update_put_only (s2 : σ)
    (hfind : conn.findCIDRCollectionByID w.server request.Plan.CIDRCollectionID.ValueString
      = (s1, Except.ok collection))
    (hadd : Route53.Difference (Route53.ExpandFrameworkStringValueSet request.Plan.CIDRBlocks)
      (Route53.ExpandFrameworkStringValueSet request.State.CIDRBlocks) = add)
    (hdel : Route53.Difference (Route53.ExpandFrameworkStringValueSet request.State.CIDRBlocks)
      (Route53.ExpandFrameworkStringValueSet request.Plan.CIDRBlocks) = ∅)
    (hne : add ≠ ∅)
    (hput : conn.ChangeCidrCollection s1
      (Route53.changeInput Route53.CidrCollectionChangeAction.Put add request.Plan
        collection.Version) = (s2, none)) :
    Route53.Update conn w request
      = ({ server := s2,
           calls := w.calls ++ [⟨Route53.Call.findCIDRCollectionByID
               request.Plan.CIDRCollectionID.ValueString, true⟩,
             ⟨Route53.Call.ChangeCidrCollection
               (Route53.changeInput Route53.CidrCollectionChangeAction.Put add request.Plan
                 collection.Version), true⟩] },
         { Diagnostics := [], State := request.Plan }) := by
  have hpos : 0 < add.card := Finset.card_pos.mpr (Finset.nonempty_iff_ne_empty.mpr hne)
  unfold Route53.Update
  simp only [Route53.callFindCIDRCollectionByID, hfind, hadd, hdel,
    Route53.callChangeCidrCollection, hput]
  simp [hpos, hput, Except.isOk, Except.toBool]

/-- Update when both sets are non-empty and the Put succeeds: a Put with the fetched
version, then a DeleteIfExists with no version. -/
theorem Update_put_delete (s2 s3 : σ) (r : Option Route53.APIError)
    (hfind : conn.findCIDRCollectionByID w.server request.Plan.CIDRCollectionID.ValueString
      = (s1, Except.ok collection))
    (hadd : Route53.Difference (Route53.ExpandFrameworkStringValueSet request.Plan.CIDRBlocks)
      (Route53.ExpandFrameworkStringValueSet request.State.CIDRBlocks) = add)
    (hdel : Route53.Difference (Route53.ExpandFrameworkStringValueSet request.State.CIDRBlocks)
      (Route53.ExpandFrameworkStringValueSet request.Plan.CIDRBlocks) = del)
    (hne : add ≠ ∅) (hne2 : del ≠ ∅)
    (hput : conn.ChangeCidrCollection s1
      (Route53.changeInput Route53.CidrCollectionChangeAction.Put add request.Plan
        collection.Version) = (s2, none))
    (hrm : conn.ChangeCidrCollection s2
      (Route53.changeInput Route53.CidrCollectionChangeAction.DeleteIfExists del request.Plan
        none) = (s3, r)) :
    Route53.Update conn w request
      = ({ server := s3,
           calls := w.calls ++ [⟨Route53.Call.findCIDRCollectionByID
               request.Plan.CIDRCollectionID.ValueString, true⟩,
             ⟨Route53.Call.ChangeCidrCollection
               (Route53.changeInput Route53.CidrCollectionChangeAction.Put add request.Plan
                 collection.Version), true⟩,
             ⟨Route53.Call.ChangeCidrCollection
               (Route53.changeInput Route53.CidrCollectionChangeAction.DeleteIfExists del
                 request.Plan none), r.isNone⟩] },
         match r with
         | some err =>
           { Diagnostics := [⟨Severity.Error, "removing CIDR blocks from Route 53 CIDR Location ("
               ++ request.Plan.ID.ValueString ++ ")", Route53.Error.API err⟩],
             State := request.State }
         | none => { Diagnostics := [], State := request.Plan }) := by
  have hpos : 0 < add.card := Finset.card_pos.mpr (Finset.nonempty_iff_ne_empty.mpr hne)
  have hpos2 : 0 < del.card := Finset.card_pos.mpr (Finset.nonempty_iff_ne_empty.mpr hne2)
  unfold Route53.Update
  simp only [Route53.callFindCIDRCollectionByID, hfind, hadd, hdel,
    Route53.callChangeCidrCollection, hput]
  cases r <;> simp [hpos, hpos2, hput, hrm, Except.isOk, Except.toBool, Route53.AddError]

end UpdateCases

/-- C10: once the collection lookup has succeeded, the calls Update adds to the log are the
lookup, then a Put carrying exactly `new − old` if and only if that set is non-empty, then
a DeleteIfExists carrying exactly `old − new` if and only if that set is non-empty and the
Put, when issued, succeeded; nothing else, so at most two change calls. When the Put fails
the log ends with it. When `old = new` no change call is issued and the plan is written to
state without a diagnostic. -/
theorem update_put_then_delete_calls {σ : Type} (conn : Route53.Conn σ) (w : Route53.World σ)
    (request : Route53.UpdateRequest) (s1 s2 s3 : σ) (collection : Route53.CollectionSummary)
    (old new add del : Finset String) (put rm : Route53.ChangeCidrCollectionInput)
    (rput rrm : Option Route53.APIError)
    (hfind : conn.findCIDRCollectionByID w.server request.Plan.CIDRCollectionID.ValueString
      = (s1, Except.ok collection))
    (hold : old = Route53.ExpandFrameworkStringValueSet request.State.CIDRBlocks)
    (hnew : new = Route53.ExpandFrameworkStringValueSet request.Plan.CIDRBlocks)
    (hadd : add = new \ old) (hdel : del = old \ new)
    (hput : put =
      { Changes := [{ Action := Route53.CidrCollectionChangeAction.Put, CidrList := add,
                      LocationName := request.Plan.Name.ValueStringPointer }],
        CollectionVersion := collection.Version,
        Id := request.Plan.CIDRCollectionID.ValueStringPointer })
    (hrm : rm =
      { Changes := [{ Action := Route53.CidrCollectionChangeAction.DeleteIfExists,
                      CidrList := del,
                      LocationName := request.Plan.Name.ValueStringPointer }],
        CollectionVersion := if add = ∅ then collection.Version else none,
        Id := request.Plan.CIDRCollectionID.ValueStringPointer })
    (hputres : conn.ChangeCidrCollection s1 put = (s2, rput))
    (hrmres : conn.ChangeCidrCollection (if add = ∅ then s1 else s2) rm = (s3, rrm)) :
    (Route53.Update conn w request).1.calls
        = w.calls
          ++ [⟨Route53.Call.findCIDRCollectionByID
                request.Plan.CIDRCollectionID.ValueString, true⟩]
          ++ (if add = ∅ then [] else [⟨Route53.Call.ChangeCidrCollection put, rput.isNone⟩])
          ++ (if (add = ∅ ∨ rput = none) ∧ del ≠ ∅ then
                [⟨Route53.Call.ChangeCidrCollection rm, rrm.isNone⟩]
              else [])
      ∧ (add ≠ ∅ → rput ≠ none →
          (Route53.Update conn w request).1.calls
            = w.calls
              ++ [⟨Route53.Call.findCIDRCollectionByID
                    request.Plan.CIDRCollectionID.ValueString, true⟩,
                  ⟨Route53.Call.ChangeCidrCollection put, false⟩])
      ∧ (old = new →
          Route53.Update conn w request
            = (⟨s1, w.calls ++ [⟨Route53.Call.findCIDRCollectionByID
                  request.Plan.CIDRCollectionID.ValueString, true⟩]⟩,
               ⟨[], request.Plan⟩)) := by
  have hadd' : Route53.Difference
      (Route53.ExpandFrameworkStringValueSet request.Plan.CIDRBlocks)
      (Route53.ExpandFrameworkStringValueSet request.State.CIDRBlocks) = add := by
    rw [hadd, hnew, hold]; rfl
  have hdel' : Route53.Difference
      (Route53.ExpandFrameworkStringValueSet request.State.CIDRBlocks)
      (Route53.ExpandFrameworkStringValueSet request.Plan.CIDRBlocks) = del := by
    rw [hdel, hnew, hold]; rfl
  have hput' : put = Route53.changeInput Route53.CidrCollectionChangeAction.Put add
      request.Plan collection.Version := hput
  have hrm' : rm = Route53.changeInput Route53.CidrCollectionChangeAction.DeleteIfExists del
      request.Plan (if add = ∅ then collection.Version else none) := hrm
  rw [hput'] at hputres
  rw [hrm'] at hrmres
  refine ⟨?_, ?_, ?_⟩
  · by_cases ha : add = ∅
    · simp only [if_pos ha] at hrmres hrm'
      by_cases hd : del = ∅
      · rw [Update_no_change conn w request s1 collection hfind (ha ▸ hadd')
          (hd ▸ hdel')]
        simp [ha, hd]
      · rw [Update_delete_only conn w request s1 collection del s3 rrm hfind
          (ha ▸ hadd') hdel' hd hrmres]
        simp [ha, hd, hrm']
    · simp only [if_neg ha] at hrmres hrm'
      cases rput with
      | some err =>
        rw [Update_put_failed conn w request s1 collection add s2 err hfind hadd' ha
          hputres]
        simp [ha, hput']
      | none =>
        by_cases hd : del = ∅
        · rw [Update_put_only conn w request s1 collection add s2 hfind hadd'
            (hd ▸ hdel') ha hputres]
          simp [ha, hd, hput']
        · rw [Update_put_delete conn w request s1 collection add del s2 s3 rrm hfind
            hadd' hdel' ha hd hputres hrmres]
          simp [ha, hd, hput', hrm']
  · intro ha hr
    cases rput with
    | none => exact absurd rfl hr
    | some err =>
      rw [Update_put_failed conn w request s1 collection add s2 err hfind hadd' ha
        hputres]
      simp [hput']
  · intro heq
    have ha : add = ∅ := by rw [hadd, heq]; simp
    have hd : del = ∅ := by rw [hdel, heq]; simp
    rw [Update_no_change conn w request s1 collection hfind (ha ▸ hadd') (hd ▸ hdel')]

/-- The removals message and the additions message for the same ID are different strings. -/
theorem removing_summary_ne_adding_summary (id : String) :
    "removing CIDR blocks from Route 53 CIDR Location (" ++ id ++ ")"
      ≠ "adding CIDR blocks to Route 53 CIDR Location (" ++ id ++ ")" := by
  intro h
  have h2 := congrArg String.data h
  simp only [String.data_append] at h2
  have h3 := congrArg List.head? h2
  simp at h3

/-- C5: for every Update in which both `add` and `del` are non-empty, the Put succeeds and
the DeleteIfExists fails with `err`: the log grows by exactly the lookup, the successful Put
and the failed DeleteIfExists (no call follows the failure), the server is left in the
state the failed call produced, the state is not written, and the diagnostics are exactly
one error, whose summary is the removals message and whose detail is `err`; no diagnostic
carries the additions message. -/
theorem update_removals_failure_keeps_additions {σ : Type} (conn : Route53.Conn σ)
    (w : Route53.World σ) (request : Route53.UpdateRequest) (s1 s2 s3 : σ)
    (collection : Route53.CollectionSummary) (add del : Finset String)
    (err : Route53.APIError)
    (hfind : conn.findCIDRCollectionByID w.server request.Plan.CIDRCollectionID.ValueString
      = (s1, Except.ok collection))
    (hadd : add = Route53.ExpandFrameworkStringValueSet request.Plan.CIDRBlocks
      \ Route53.ExpandFrameworkStringValueSet request.State.CIDRBlocks)
    (hdel : del = Route53.ExpandFrameworkStringValueSet request.State.CIDRBlocks
      \ Route53.ExpandFrameworkStringValueSet request.Plan.CIDRBlocks)
    (hne : add ≠ ∅) (hne2 : del ≠ ∅)
    (hput : conn.ChangeCidrCollection s1
      (Route53.changeInput Route53.CidrCollectionChangeAction.Put add request.Plan
        collection.Version) = (s2, none))
    (hrm : conn.ChangeCidrCollection s2
      (Route53.changeInput Route53.CidrCollectionChangeAction.DeleteIfExists del request.Plan
        none) = (s3, some err)) :
    Route53.Update conn w request
      = (⟨s3, w.calls ++ [⟨Route53.Call.findCIDRCollectionByID
              request.Plan.CIDRCollectionID.ValueString, true⟩,
            ⟨Route53.Call.ChangeCidrCollection
              (Route53.changeInput Route53.CidrCollectionChangeAction.Put add request.Plan
                collection.Version), true⟩,
            ⟨Route53.Call.ChangeCidrCollection
              (Route53.changeInput Route53.CidrCollectionChangeAction.DeleteIfExists del
                request.Plan none), false⟩]⟩,
         ⟨[⟨Severity.Error, "removing CIDR blocks from Route 53 CIDR Location ("
              ++ request.Plan.ID.ValueString ++ ")", Route53.Error.API err⟩],
          request.State⟩)
      ∧ ∀ d ∈ (Route53.Update conn w request).2.Diagnostics,
          d.summary ≠ "adding CIDR blocks to Route 53 CIDR Location ("
            ++ request.Plan.ID.ValueString ++ ")" := by
  have heq := Update_put_delete conn w request s1 collection add del s2 s3 (some err) hfind
    (hadd ▸ rfl) (hdel ▸ rfl) hne hne2 hput hrm
  refine ⟨heq, ?_⟩
  rw [heq]
  intro d hd
  simp only [List.mem_singleton] at hd
  rw [hd]
  exact removing_summary_ne_adding_summary _

/-- C5 witness: the scripted connection answers the Put without error and the
DeleteIfExists with an error. -/
theorem update_removals_failure_keeps_additions_witness :
    Route53.Update
        (Route53.scriptedConn (Except.ok Route53.exampleCollection)
          [none, some (Route53.APIError.Other "ConcurrentModification")] [])
        Route53.exampleWorld Route53.exampleUpdateRequest
      = (⟨2, [⟨Route53.Call.findCIDRCollectionByID "abc123", true⟩,
            ⟨Route53.Call.ChangeCidrCollection
              { Changes := [{ Action := Route53.CidrCollectionChangeAction.Put,
                              CidrList := {"10.0.2.0/24"},
                              LocationName := some "my-location" }],
                CollectionVersion := some 7, Id := some "abc123" }, true⟩,
            ⟨Route53.Call.ChangeCidrCollection
              { Changes := [{ Action := Route53.CidrCollectionChangeAction.DeleteIfExists,
                              CidrList := {"10.0.0.0/24"},
                              LocationName := some "my-location" }],
                CollectionVersion := none, Id := some "abc123" }, false⟩]⟩,
         ⟨[⟨Severity.Error,
            "removing CIDR blocks from Route 53 CIDR Location (abc123:my-location)",
            Route53.Error.API (Route53.APIError.Other "ConcurrentModification")⟩],
          Route53.exampleModel {"10.0.0.0/24", "10.0.1.0/24"}⟩) :=
  (update_removals_failure_keeps_additions _ Route53.exampleWorld Route53.exampleUpdateRequest
    0 1 2 Route53.exampleCollection {"10.0.2.0/24"} {"10.0.0.0/24"}
    (Route53.APIError.Other "ConcurrentModification") rfl (by decide) (by decide) (by decide)
    (by decide) rfl rfl).1

/-- C3: once the collection lookup has succeeded with `collection`, (1) if `add` and `del`
are non-empty and the Put succeeded, the log grows by the lookup, the Put, and a
DeleteIfExists whose `CollectionVersion` is absent; (2) if `add` is empty and `del` is not,
it grows by the lookup and a DeleteIfExists whose `CollectionVersion` is the fetched
`collection.Version`; (3) in every case, a change call logged after a successful change
call of the same Update carries no `CollectionVersion`. -/
theorem update_removals_version_token {σ : Type} (conn : Route53.Conn σ)
    (w : Route53.World σ) (request : Route53.UpdateRequest) (s1 : σ)
    (collection : Route53.CollectionSummary) (add del : Finset String)
    (hfind : conn.findCIDRCollectionByID w.server request.Plan.CIDRCollectionID.ValueString
      = (s1, Except.ok collection))
    (hadd : add = Route53.ExpandFrameworkStringValueSet request.Plan.CIDRBlocks
      \ Route53.ExpandFrameworkStringValueSet request.State.CIDRBlocks)
    (hdel : del = Route53.ExpandFrameworkStringValueSet request.State.CIDRBlocks
      \ Route53.ExpandFrameworkStringValueSet request.Plan.CIDRBlocks) :
    (add ≠ ∅ → del ≠ ∅ →
      (conn.ChangeCidrCollection s1
        (Route53.changeInput Route53.CidrCollectionChangeAction.Put add request.Plan
          collection.Version)).2 = none →
      ∃ ok, (Route53.Update conn w request).1.calls
        = w.calls ++ [⟨Route53.Call.findCIDRCollectionByID
              request.Plan.CIDRCollectionID.ValueString, true⟩,
            ⟨Route53.Call.ChangeCidrCollection
              { Changes := [{ Action := Route53.CidrCollectionChangeAction.Put,
                              CidrList := add,
                              LocationName := request.Plan.Name.ValueStringPointer }],
                CollectionVersion := collection.Version,
                Id := request.Plan.CIDRCollectionID.ValueStringPointer }, true⟩,
            ⟨Route53.Call.ChangeCidrCollection
              { Changes := [{ Action := Route53.CidrCollectionChangeAction.DeleteIfExists,
                              CidrList := del,
                              LocationName := request.Plan.Name.ValueStringPointer }],
                CollectionVersion := none,
                Id := request.Plan.CIDRCollectionID.ValueStringPointer }, ok⟩])
    ∧ (add = ∅ → del ≠ ∅ →
      ∃ ok, (Route53.Update conn w request).1.calls
        = w.calls ++ [⟨Route53.Call.findCIDRCollectionByID
              request.Plan.CIDRCollectionID.ValueString, true⟩,
            ⟨Route53.Call.ChangeCidrCollection
              { Changes := [{ Action := Route53.CidrCollectionChangeAction.DeleteIfExists,
                              CidrList := del,
                              LocationName := request.Plan.Name.ValueStringPointer }],
                CollectionVersion := collection.Version,
                Id := request.Plan.CIDRCollectionID.ValueStringPointer }, ok⟩])
    ∧ (∀ (i j : Nat) (a b : Route53.ChangeCidrCollectionInput) (ok : Bool), i < j →
        ((Route53.Update conn w request).1.calls.drop w.calls.length)[i]?
          = some ⟨Route53.Call.ChangeCidrCollection a, true⟩ →
        ((Route53.Update conn w request).1.calls.drop w.calls.length)[j]?
          = some ⟨Route53.Call.ChangeCidrCollection b, ok⟩ →
        b.CollectionVersion = none) := by
  have hadd' : Route53.Difference
      (Route53.ExpandFrameworkStringValueSet request.Plan.CIDRBlocks)
      (Route53.ExpandFrameworkStringValueSet request.State.CIDRBlocks) = add := hadd ▸ rfl
  have hdel' : Route53.Difference
      (Route53.ExpandFrameworkStringValueSet request.State.CIDRBlocks)
      (Route53.ExpandFrameworkStringValueSet request.Plan.CIDRBlocks) = del := hdel ▸ rfl
  obtain ⟨s2, rput, hput⟩ : ∃ s2 rput, conn.ChangeCidrCollection s1
      (Route53.changeInput Route53.CidrCollectionChangeAction.Put add request.Plan
        collection.Version) = (s2, rput) := ⟨_, _, rfl⟩
  obtain ⟨s3, r3, hrm3⟩ : ∃ s3 r3, conn.ChangeCidrCollection s2
      (Route53.changeInput Route53.CidrCollectionChangeAction.DeleteIfExists del request.Plan
        none) = (s3, r3) := ⟨_, _, rfl⟩
  obtain ⟨s4, r4, hrm4⟩ : ∃ s4 r4, conn.ChangeCidrCollection s1
      (Route53.changeInput Route53.CidrCollectionChangeAction.DeleteIfExists del request.Plan
        collection.Version) = (s4, r4) := ⟨_, _, rfl⟩
  refine ⟨?_, ?_, ?_⟩
  · intro ha hd hok
    rw [hput] at hok
    simp only at hok
    subst hok
    refine ⟨r3.isNone, ?_⟩
    rw [Update_put_delete conn w request s1 collection add del s2 s3 r3 hfind hadd' hdel' ha
      hd hput hrm3]
    rfl
  · intro ha hd
    refine ⟨r4.isNone, ?_⟩
    rw [Update_delete_only conn w request s1 collection del s4 r4 hfind (ha ▸ hadd') hdel' hd
      hrm4]
    rfl
  · intro i j a b ok hij hi hj
    by_cases ha : add = ∅
    · by_cases hd : del = ∅
      · rw [Update_no_change conn w request s1 collection hfind (ha ▸ hadd') (hd ▸ hdel')]
          at hi hj
        simp only [List.drop_left] at hi hj
        match i, j, hij with
        | 0, 0, h => exact absurd h (by decide)
        | 0, j + 1, _ => simp at hi
        | i + 1, _, _ => simp at hi
      · rw [Update_delete_only conn w request s1 collection del s4 r4 hfind (ha ▸ hadd') hdel'
          hd hrm4] at hi hj
        simp only [List.drop_left] at hi hj
        match i, j, hij with
        | 0, _, _ => simp at hi
        | 1, 0, h => exact absurd h (by decide)
        | 1, 1, h => exact absurd h (by decide)
        | 1, j + 2, _ => simp at hj
        | i + 2, _, _ => simp at hi
    · cases rput with
      | some err =>
        rw [Update_put_failed conn w request s1 collection add s2 err hfind hadd' ha hput]
          at hi hj
        simp only [List.drop_left] at hi hj
        match i with
        | 0 => simp at hi
        | 1 => simp at hi
        | i + 2 => simp at hi
      | none =>
        by_cases hd : del = ∅
        · rw [Update_put_only conn w request s1 collection add s2 hfind hadd' (hd ▸ hdel') ha
            hput] at hi hj
          simp only [List.drop_left] at hi hj
          match i, j, hij with
          | 0, _, _ => simp at hi
          | 1, 0, h => exact absurd h (by decide)
          | 1, 1, h => exact absurd h (by decide)
          | 1, j + 2, _ => simp at hj
          | i + 2, _, _ => simp at hi
        · rw [Update_put_delete conn w request s1 collection add del s2 s3 r3 hfind hadd' hdel'
            ha hd hput hrm3] at hi hj
          simp only [List.drop_left] at hi hj
          match i, j, hij with
          | 0, _, _ => simp at hi
          | 1, 0, h => exact absurd h (by decide)
          | 1, 1, h => exact absurd h (by decide)
          | 1, 2, _ =>
            simp only [List.getElem?_cons_succ, List.getElem?_cons_zero, Option.some.injEq,
              Route53.Logged.mk.injEq, Route53.Call.ChangeCidrCollection.injEq] at hj
            rw [← hj.1]
            rfl
          | 1, j + 3, _ => simp at hj
          | 2, 0, h => exact absurd h (by decide)
          | 2, 1, h => exact absurd h (by decide)
          | 2, 2, h => exact absurd h (by decide)
          | 2, j + 3, _ => simp at hj
          | i + 3, _, _ => simp at hi

/-- C3 witness: on the example update the Put is sent with version 7 and succeeds, and the
DeleteIfExists that follows is sent with no version. -/
theorem update_removals_version_token_witness :
    ∃ ok, (Route53.Update (Route53.scriptedConn (Except.ok Route53.exampleCollection) [] [])
        Route53.exampleWorld Route53.exampleUpdateRequest).1.calls
      = [⟨Route53.Call.findCIDRCollectionByID "abc123", true⟩,
          ⟨Route53.Call.ChangeCidrCollection
            { Changes := [{ Action := Route53.CidrCollectionChangeAction.Put,
                            CidrList := {"10.0.2.0/24"},
                            LocationName := some "my-location" }],
              CollectionVersion := some 7, Id := some "abc123" }, true⟩,
          ⟨Route53.Call.ChangeCidrCollection
            { Changes := [{ Action := Route53.CidrCollectionChangeAction.DeleteIfExists,
                            CidrList := {"10.0.0.0/24"},
                            LocationName := some "my-location" }],
              CollectionVersion := none, Id := some "abc123" }, ok⟩] :=
  (update_removals_version_token (Route53.scriptedConn (Except.ok Route53.exampleCollection)
      [] []) Route53.exampleWorld Route53.exampleUpdateRequest 0 Route53.exampleCollection
    {"10.0.2.0/24"} {"10.0.0.0/24"} rfl (by decide) (by decide)).1 (by decide) (by decide) rfl

/-- C10 witness: on the example update, with both change calls succeeding, the log is the
lookup, the Put of `10.0.2.0/24`, then the DeleteIfExists of `10.0.0.0/24`. -/
theorem update_put_then_delete_calls_witness :
    (Route53.Update (Route53.scriptedConn (Except.ok Route53.exampleCollection) [] [])
        Route53.exampleWorld Route53.exampleUpdateRequest).1.calls
      = [⟨Route53.Call.findCIDRCollectionByID "abc123", true⟩,
          ⟨Route53.Call.ChangeCidrCollection
            { Changes := [{ Action := Route53.CidrCollectionChangeAction.Put,
                            CidrList := {"10.0.2.0/24"},
                            LocationName := some "my-location" }],
              CollectionVersion := some 7, Id := some "abc123" }, true⟩,
          ⟨Route53.Call.ChangeCidrCollection
            { Changes := [{ Action := Route53.CidrCollectionChangeAction.DeleteIfExists,
                            CidrList := {"10.0.0.0/24"},
                            LocationName := some "my-location" }],
              CollectionVersion := none, Id := some "abc123" }, true⟩] :=
  (update_put_then_delete_calls (Route53.scriptedConn (Except.ok Route53.exampleCollection)
      [] []) Route53.exampleWorld Route53.exampleUpdateRequest 0 1 2 Route53.exampleCollection
    {"10.0.0.0/24", "10.0.1.0/24"} {"10.0.1.0/24", "10.0.2.0/24"} {"10.0.2.0/24"}
    {"10.0.0.0/24"} _ _ none none rfl rfl rfl (by decide) (by decide) rfl rfl rfl rfl).1

/-! ### Finder and pager -/

/-- When the paging loop of `findCIDRBlocks` returns an error, the `output` it returns with
it is the nil slice. -/
theorem findCIDRBlocksLoop_error_output {σ : Type} (conn : Route53.Conn σ)
    (input : Route53.ListCidrBlocksInput) (fuel : Nat) (w w1 : Route53.World σ)
    (pages : Route53.ListCidrBlocksPaginator) (output out : List Route53.CidrBlockSummary)
    (err : Route53.Error)
    (h : Route53.findCIDRBlocksLoop conn input fuel w pages output = some (w1, out, some err)) :
    out = [] := by
  induction fuel generalizing w pages output with
  | zero =>
    unfold Route53.findCIDRBlocksLoop at h
    split at h <;> simp at h
  | succ fuel ih =>
    unfold Route53.findCIDRBlocksLoop at h
    split at h
    · split at h
      · split at h
        · simp only [Option.some.injEq, Prod.mk.injEq] at h
          exact h.2.1.symm
        · simp only [Option.some.injEq, Prod.mk.injEq] at h
          exact h.2.1.symm
      · exact ih _ _ _ h
    · simp at h

/-- More fuel does not change a result the paging loop has already produced. -/
theorem findCIDRBlocksLoop_fuel_mono {σ : Type} (conn : Route53.Conn σ)
    (input : Route53.ListCidrBlocksInput) (fuel k : Nat) (w : Route53.World σ)
    (pages : Route53.ListCidrBlocksPaginator) (output : List Route53.CidrBlockSummary)
    (r : Route53.World σ × List Route53.CidrBlockSummary × Option Route53.Error)
    (h : Route53.findCIDRBlocksLoop conn input fuel w pages output = some r) :
    Route53.findCIDRBlocksLoop conn input (fuel + k) w pages output = some r := by
  induction fuel generalizing w pages output with
  | zero =>
    unfold Route53.findCIDRBlocksLoop at h
    split at h
    · simp at h
    · rename_i hmore
      cases k with
      | zero => simp [Route53.findCIDRBlocksLoop, hmore, h]
      | succ k =>
        rw [Nat.zero_add]
        unfold Route53.findCIDRBlocksLoop
        simp only [hmore]
        exact h
  | succ fuel ih =>
    rw [Nat.add_right_comm]
    unfold Route53.findCIDRBlocksLoop at h ⊢
    split at h
    · rename_i hmore
      simp only [hmore, if_true]
      split at h
      · exact h
      · exact ih _ _ _ h
    · rename_i hmore
      simp only [hmore]
      exact h

/-- Every error `findCIDRLocationByTwoPartKey` returns is a not-found error: an error of
`findCIDRBlocks` comes with an empty `output`, and the length test precedes the error
test. -/
theorem findCIDRLocationByTwoPartKey_error_notFound {σ : Type} (conn : Route53.Conn σ)
    (fuel : Nat) (w w1 : Route53.World σ) (collectionID locationName : String)
    (err : Route53.Error)
    (h : Route53.findCIDRLocationByTwoPartKey conn fuel w collectionID locationName
      = some (w1, Except.error err)) :
    Route53.NotFound (some err) = true := by
  unfold Route53.findCIDRLocationByTwoPartKey at h
  cases hb : Route53.findCIDRBlocks conn fuel w
      { CollectionId := some collectionID, LocationName := some locationName,
        MaxResults := none, NextToken := none } with
  | none => simp [hb] at h
  | some r =>
    obtain ⟨w2, output, e⟩ := r
    simp only [hb] at h
    split at h
    · simp only [Option.some.injEq, Prod.mk.injEq, Except.error.injEq] at h
      rw [← h.2]
      rfl
    · rename_i hlen
      cases e with
      | none => simp at h
      | some e =>
        have hnil := findCIDRBlocksLoop_error_output conn _ fuel w w2 _ [] output e hb
        simp [hnil] at hlen

/-- C6: if draining all pages of ListCidrBlocks succeeds and yields zero items, then
`findCIDRLocationByTwoPartKey` returns, and what it returns is the empty-result error, for
which `tfresource.NotFound` holds; and no run of `findCIDRLocationByTwoPartKey` returns a
successful empty list. -/
theorem findCIDRLocationByTwoPartKey_zero_items {σ : Type} (conn : Route53.Conn σ)
    (fuel : Nat) (w w1 : Route53.World σ) (collectionID locationName : String)
    (hdrain : Route53.findCIDRBlocks conn fuel w
        { CollectionId := some collectionID, LocationName := some locationName,
          MaxResults := none, NextToken := none }
      = some (w1, [], none)) :
    Route53.findCIDRLocationByTwoPartKey conn fuel w collectionID locationName
        = some (w1, Except.error (Route53.NewEmptyResultError
            { CollectionId := some collectionID, LocationName := some locationName,
              MaxResults := none, NextToken := none }))
      ∧ Route53.NotFound (some (Route53.NewEmptyResultError
            { CollectionId := some collectionID, LocationName := some locationName,
              MaxResults := none, NextToken := none })) = true
      ∧ ∀ (fuel' : Nat) (w' w2 : Route53.World σ) (c n : String) (xs : List String),
          Route53.findCIDRLocationByTwoPartKey conn fuel' w' c n = some (w2, Except.ok xs) →
          xs ≠ [] := by
  refine ⟨?_, rfl, ?_⟩
  · simp [Route53.findCIDRLocationByTwoPartKey, hdrain]
  · intro fuel' w' w2 c n xs h
    unfold Route53.findCIDRLocationByTwoPartKey at h
    cases hb : Route53.findCIDRBlocks conn fuel' w'
        { CollectionId := some c, LocationName := some n,
          MaxResults := none, NextToken := none } with
    | none => simp [hb] at h
    | some r =>
      obtain ⟨w3, output, e⟩ := r
      simp only [hb] at h
      split at h
      · simp at h
      · rename_i hlen
        cases e with
        | some e => simp at h
        | none =>
          simp only [Option.some.injEq, Prod.mk.injEq, Except.ok.injEq] at h
          rw [← h.2]
          intro hmap
          simp only [List.map_eq_nil_iff] at hmap
          simp [hmap] at hlen

/-- C6 witness: the server answers the first page with no items and no continuation token;
the lookup returns the empty-result error. -/
theorem findCIDRLocationByTwoPartKey_zero_items_witness :
    Route53.findCIDRLocationByTwoPartKey
        (Route53.scriptedConn (Except.ok Route53.exampleCollection) []
          [Except.ok { CidrBlocks := [], NextToken := none }])
        1 Route53.exampleWorld "abc123" "my-location"
      = some (⟨1, [⟨Route53.Call.ListCidrBlocks
            { CollectionId := some "abc123", LocationName := some "my-location",
              MaxResults := none, NextToken := none }, true⟩]⟩,
          Except.error (Route53.Error.EmptyResultError (Route53.Request.ListCidrBlocks
            { CollectionId := some "abc123", LocationName := some "my-location",
              MaxResults := none, NextToken := none }))) :=
  (findCIDRLocationByTwoPartKey_zero_items
    (Route53.scriptedConn (Except.ok Route53.exampleCollection) []
      [Except.ok { CidrBlocks := [], NextToken := none }])
    1 Route53.exampleWorld _ "abc123" "my-location" rfl).1

/-- C1: evaluation at a failing input. The first page fetch fails with a throttling error,
which is neither of the two no-such exceptions. `findCIDRBlocks` returns that error with a
nil `output`, and `findCIDRLocationByTwoPartKey` then returns the empty-result error, for
which `tfresource.NotFound` holds, and not the throttling error. -/
theorem findCIDRLocationByTwoPartKey_replaces_api_error :
    Route53.findCIDRBlocks
        (Route53.scriptedConn (Except.ok Route53.exampleCollection) []
          [Except.error (Route53.APIError.Other "Throttling")])
        1 Route53.exampleWorld
        { CollectionId := some "abc123", LocationName := some "my-location",
          MaxResults := none, NextToken := none }
      = some (⟨1, [⟨Route53.Call.ListCidrBlocks
            { CollectionId := some "abc123", LocationName := some "my-location",
              MaxResults := none, NextToken := none }, false⟩]⟩,
          [], some (Route53.Error.API (Route53.APIError.Other "Throttling")))
    ∧ Route53.findCIDRLocationByTwoPartKey
        (Route53.scriptedConn (Except.ok Route53.exampleCollection) []
          [Except.error (Route53.APIError.Other "Throttling")])
        1 Route53.exampleWorld "abc123" "my-location"
      = some (⟨1, [⟨Route53.Call.ListCidrBlocks
            { CollectionId := some "abc123", LocationName := some "my-location",
              MaxResults := none, NextToken := none }, false⟩]⟩,
          Except.error (Route53.Error.EmptyResultError (Route53.Request.ListCidrBlocks
            { CollectionId := some "abc123", LocationName := some "my-location",
              MaxResults := none, NextToken := none })))
    ∧ Route53.NotFound (some (Route53.Error.EmptyResultError (Route53.Request.ListCidrBlocks
            { CollectionId := some "abc123", LocationName := some "my-location",
              MaxResults := none, NextToken := none }))) = true
    ∧ Route53.Error.EmptyResultError (Route53.Request.ListCidrBlocks
            { CollectionId := some "abc123", LocationName := some "my-location",
              MaxResults := none, NextToken := none })
        ≠ Route53.Error.API (Route53.APIError.Other "Throttling") :=
  ⟨rfl, rfl, rfl, by decide⟩

/-! ### Read -/

/-- C7: evaluation at a failing input. The stored ID `abc123:my-location` parses, and the
page fetch of the lookup fails with a throttling error, which is not a not-found error. Read
nevertheless reports no error: its diagnostics are one warning, and it removes the resource
from state, because the lookup hands it the empty-result error in place of the throttling
error. -/
theorem Read_drops_resource_on_throttling :
    Route53.InitFromID ':' (Route53.exampleModel {"10.0.0.0/24"})
      = Except.ok (Route53.exampleModel {"10.0.0.0/24"})
    ∧ Route53.findCIDRBlocks
        (Route53.scriptedConn (Except.ok Route53.exampleCollection) []
          [Except.error (Route53.APIError.Other "Throttling")])
        1 Route53.exampleWorld
        { CollectionId := some "abc123", LocationName := some "my-location",
          MaxResults := none, NextToken := none }
      = some (⟨1, [⟨Route53.Call.ListCidrBlocks
            { CollectionId := some "abc123", LocationName := some "my-location",
              MaxResults := none, NextToken := none }, false⟩]⟩,
          [], some (Route53.Error.API (Route53.APIError.Other "Throttling")))
    ∧ Route53.NotFound (some (Route53.Error.API (Route53.APIError.Other "Throttling")))
      = false
    ∧ Route53.Read ':'
        (Route53.scriptedConn (Except.ok Route53.exampleCollection) []
          [Except.error (Route53.APIError.Other "Throttling")])
        1 Route53.exampleWorld ⟨Route53.exampleModel {"10.0.0.0/24"}⟩
      = some (⟨1, [⟨Route53.Call.ListCidrBlocks
            { CollectionId := some "abc123", LocationName := some "my-location",
              MaxResults := none, NextToken := none }, false⟩]⟩,
          ⟨[⟨Severity.Warning, "AWS resource not found during refresh",
              Route53.Error.EmptyResultError (Route53.Request.ListCidrBlocks
                { CollectionId := some "abc123", LocationName := some "my-location",
                  MaxResults := none, NextToken := none })⟩],
            none⟩)
    ∧ Route53.HasError
        [⟨Severity.Warning, "AWS resource not found during refresh",
          Route53.Error.EmptyResultError (Route53.Request.ListCidrBlocks
            { CollectionId := some "abc123", LocationName := some "my-location",
              MaxResults := none, NextToken := none })⟩]
      = false :=
  ⟨rfl, rfl, rfl, rfl, rfl⟩

/-- Every lookup error that reaches Read is a not-found error, so Read answers every failed
lookup by dropping the resource with a warning; its error branch for a failed lookup is
never entered. -/
theorem Read_lookup_error_drops_resource {σ : Type} (sep : Char) (conn : Route53.Conn σ)
    (fuel : Nat) (w w1 : Route53.World σ) (request : Route53.ReadRequest)
    (data : Route53.cidrLocationResourceModel) (err : Route53.Error)
    (hid : Route53.InitFromID sep request.State = Except.ok data)
    (hfind : Route53.findCIDRLocationByTwoPartKey conn fuel w
        data.CIDRCollectionID.ValueString data.Name.ValueString
      = some (w1, Except.error err)) :
    Route53.Read sep conn fuel w request
      = some (w1, ⟨[⟨Severity.Warning, "AWS resource not found during refresh", err⟩],
          none⟩) := by
  have hnf := findCIDRLocationByTwoPartKey_error_notFound conn fuel w w1 _ _ err hfind
  simp [Route53.Read, hid, hfind, hnf,
    Route53.NewResourceNotFoundWarningDiagnostic]

/-! ### Delete -/

/-- Delete when the change call answers `NoSuchCidrCollectionException`: no diagnostic. -/
theorem Delete_change_noSuchCidrCollection {σ : Type} (conn : Route53.Conn σ)
    (w : Route53.World σ) (request : Route53.DeleteRequest) (s1 s2 : σ)
    (collection : Route53.CollectionSummary)
    (hfind : conn.findCIDRCollectionByID w.server request.State.CIDRCollectionID.ValueString
      = (s1, Except.ok collection))
    (hrm : conn.ChangeCidrCollection s1
      (Route53.changeInput Route53.CidrCollectionChangeAction.DeleteIfExists
        (Route53.ExpandFrameworkStringValueSet request.State.CIDRBlocks) request.State
        collection.Version)
      = (s2, some Route53.APIError.NoSuchCidrCollectionException)) :
    (Route53.Delete conn w request).2.Diagnostics = [] := by
  simp [Route53.Delete, Route53.callFindCIDRCollectionByID, hfind,
    Route53.callChangeCidrCollection, hrm, Route53.IsNoSuchCidrCollectionException]

/-- Delete when the collection lookup fails, for whatever reason: exactly one error
diagnostic, and no change call. -/
theorem Delete_lookup_failed {σ : Type} (conn : Route53.Conn σ)
    (w : Route53.World σ) (request : Route53.DeleteRequest) (s1 : σ) (err : Route53.Error)
    (hfind : conn.findCIDRCollectionByID w.server request.State.CIDRCollectionID.ValueString
      = (s1, Except.error err)) :
    Route53.Delete conn w request
      = (⟨s1, w.calls ++ [⟨Route53.Call.findCIDRCollectionByID
            request.State.CIDRCollectionID.ValueString, false⟩]⟩,
         ⟨[⟨Severity.Error, "reading Route 53 CIDR Collection ("
            ++ request.State.CIDRCollectionID.ValueString ++ ")", err⟩]⟩) := by
  simp [Route53.Delete, Route53.callFindCIDRCollectionByID, hfind, Route53.AddError,
    Except.isOk, Except.toBool]

/-- C2: evaluation at a failing input. The parent collection `abc123` no longer exists, so
the collection lookup answers with a not-found error; Delete issues no change call and
reports an error diagnostic. -/
theorem Delete_reports_error_when_collection_gone :
    Route53.NotFound (some (Route53.Error.EmptyResultError
        (Route53.Request.Opaque "ListCidrCollections"))) = true
    ∧ Route53.Delete
        (Route53.scriptedConn (Except.error (Route53.Error.EmptyResultError
          (Route53.Request.Opaque "ListCidrCollections"))) [] [])
        Route53.exampleWorld ⟨Route53.exampleModel {"10.0.0.0/24"}⟩
      = (⟨0, [⟨Route53.Call.findCIDRCollectionByID "abc123", false⟩]⟩,
         ⟨[⟨Severity.Error, "reading Route 53 CIDR Collection (abc123)",
            Route53.Error.EmptyResultError (Route53.Request.Opaque "ListCidrCollections")⟩]⟩)
    ∧ Route53.HasError (Route53.Delete
        (Route53.scriptedConn (Except.error (Route53.Error.EmptyResultError
          (Route53.Request.Opaque "ListCidrCollections"))) [] [])
        Route53.exampleWorld ⟨Route53.exampleModel {"10.0.0.0/24"}⟩).2.Diagnostics = true :=
  ⟨rfl, rfl, rfl⟩
